import Mathlib

/-!
Shallow embedding of the LeadPilot durable job worker
(`api/worker.py`, with its collaborator `api/plans.py` and the
`Job` model of `api/database.py`).

Modelling conventions:
* Timestamps are `Int` instants (seconds); each place the source calls
  `datetime.utcnow()` receives its own instant parameter.
* The `Job` row carries the columns the worker reads or writes.
  `attempt_count` and `leads_found` are `Nat` (DB default `0`); the
  Python `or`-coalescing of a `0`/`NULL` column is modelled where the
  source applies it.
* The `targets` column is a JSON text column; the worker runs
  `json.loads(job.targets or "[]")`.  The external `json` library is
  abstracted by `TargetsField`/`decodeTargets`: a SQL `NULL` or empty
  string is coalesced to `"[]"` (hence decodes to `[]`), a well-formed
  JSON array of target objects decodes to its list, and malformed text
  raises a decode error.
* The per-target executor work (`process_batch_targets` /
  `process_instagram_targets` plus lead persistence) is an external
  collaborator; it is abstracted as `runTarget : Target → Except String Nat`
  giving, per target, either the exception message raised or the number
  of leads produced and persisted.  `runJobTargets` embeds the loop of
  `_run_google_maps_job` / `_run_instagram_job` (both executors have the
  same control structure around their pipeline call).
* `increment_usage` (`api/plans.py`) performs its own DB work and can
  raise; whether the call in `process_job` raises is the parameter
  `usageRaise : Option String` (`none` = returns normally, `some msg` =
  raises with message `msg`).
* Exceptions are modelled by routing to the explicit failure branch the
  source's `except Exception` handler implements; `processJob` is a total
  function (nothing escapes the runner).
* `ProcessResult` records, besides the final row state, the row states
  committed at the claim step and at the success step, and the
  `increment_usage` invocation `(customer_id, leads_delta)` if one was
  made.  By construction of `processJob`, a recorded `usageCall` is
  issued after the `successCommit` it accompanies.
-/

namespace LeadPilot

/-- Job status enum (`JobStatus` in `api/database.py`). -/
inductive JobStatus where
  | pending
  | running
  | completed
  | completed_with_errors
  | failed
deriving DecidableEq, Repr

/-- One opaque target descriptor; `_format_target_error` reads these keys. -/
structure Target where
  city : Option String := none
  category : Option String := none
  keyword : Option String := none
deriving DecidableEq, Repr

/-- The `targets` text column, as the worker's decode step distinguishes it. -/
inductive TargetsField where
  | nullField
  | emptyStr
  | jsonArr (ts : List Target)
  | malformed (raw : String)
deriving DecidableEq, Repr

/-- Embeds `json.loads(job.targets or "[]")`: NULL and `""` are falsy and
coalesce to `"[]"`, a well-formed JSON array yields its list, malformed
text raises (`Except.error`). -/
def decodeTargets : TargetsField → Except String (List Target)
  | TargetsField.nullField => Except.ok []
  | TargetsField.emptyStr => Except.ok []
  | TargetsField.jsonArr ts => Except.ok ts
  | TargetsField.malformed raw => Except.error ("Invalid JSON: " ++ raw)

/-- The `jobs` row columns touched by the worker (`Job` in `api/database.py`). -/
structure Job where
  id : Nat
  customer_id : Option Nat := none
  job_type : String
  targets : TargetsField
  status : JobStatus
  leads_found : Nat := 0
  attempt_count : Nat := 0
  next_retry_at : Option Int := none
  error_message : Option String := none
  started_at : Option Int := none
  completed_at : Option Int := none
  created_at : Int := 0
deriving DecidableEq, Repr

/-- Worker configuration read from the environment: `_max_attempts`
(floor 1, default 3) and `_base_backoff_seconds` (floor 1, default 30). -/
structure Config where
  maxAttempts : Nat
  baseBackoff : Nat
deriving DecidableEq, Repr

/-- `_retry_delay_seconds`: exponential backoff, the attempt count clamped
to ≥ 1 before exponentiation. -/
def retryDelaySeconds (attempt_count : Int) (base : Nat) : Nat :=
  base * 2 ^ ((max 1 attempt_count).toNat - 1)

/-- Python `str.strip()`: drop whitespace from both ends. -/
def pyStrip (s : String) : String :=
  String.mk
    (((s.data.dropWhile Char.isWhitespace).reverse.dropWhile
        Char.isWhitespace).reverse)

/-- Python slicing `s[:n]`: the first `n` characters. -/
def pySlice (n : Nat) (s : String) : String :=
  String.mk (s.data.take n)

/-- `_format_target_error`: label from keyword, else `city / category`
(dropping falsy parts), else `"target"`; exception text stripped,
truncated to 120 chars, `"Unknown error"` if empty. -/
def formatTargetError (t : Target) (excMsg : String) : String :=
  let city := pyStrip (t.city.getD "")
  let category := pyStrip (t.category.getD "")
  let keyword := pyStrip (t.keyword.getD "")
  let joined := String.intercalate " / " (List.filter (fun s => s ≠ "") [city, category])
  let label := if keyword ≠ "" then keyword else if joined ≠ "" then joined else "target"
  let msg := pySlice 120 (pyStrip excMsg)
  label ++ ": " ++ (if msg = "" then "Unknown error" else msg)

/-- Executor outcome (`JobRunOutcome` dataclass). -/
structure JobRunOutcome where
  total_leads : Nat := 0
  failed_targets : Nat := 0
  target_errors : List String := []
deriving DecidableEq, Repr

/-- The per-target loop of `_run_google_maps_job` / `_run_instagram_job`:
each target either produces (and persists) some leads, or its exception
is isolated, counted, and formatted; the loop never short-circuits. -/
def runJobTargets (runTarget : Target → Except String Nat) (targets : List Target) :
    JobRunOutcome :=
  targets.foldl
    (fun acc t =>
      match runTarget t with
      | Except.ok n =>
        { acc with total_leads := acc.total_leads + n }
      | Except.error e =>
        { acc with
          failed_targets := acc.failed_targets + 1,
          target_errors := acc.target_errors ++ [formatTargetError t e] })
    { total_leads := 0, failed_targets := 0, target_errors := [] }

/-- `_mark_job_running`: the claim transition mutating the row. -/
def markJobRunning (now : Int) (job : Job) : Job :=
  { job with
    attempt_count := job.attempt_count + 1,
    status := JobStatus.running,
    started_at := some now,
    completed_at := none,
    next_retry_at := none,
    error_message := none }

/-- `int(job.attempt_count or 1)` in `_schedule_retry_or_fail`: Python
`or`-truthiness coalesces a 0 count to 1. -/
def jobCurrentAttempt (job : Job) : Nat :=
  if job.attempt_count = 0 then 1 else job.attempt_count

/-- `str(exc).strip() or "Unknown worker error"`. -/
def workerErrorText (excMsg : String) : String :=
  if pyStrip excMsg = "" then "Unknown worker error" else pyStrip excMsg

/-- `_schedule_retry_or_fail`: retry with exponential backoff while
attempts remain, else permanent failure.  Returns the mutated row and the
outcome tag the source returns. -/
def scheduleRetryOrFail (cfg : Config) (now : Int) (job : Job) (excMsg : String) :
    Job × String :=
  if jobCurrentAttempt job < cfg.maxAttempts then
    ({ job with
        status := JobStatus.pending,
        next_retry_at := some (now +
          (retryDelaySeconds (jobCurrentAttempt job : Int) cfg.baseBackoff : Int)),
        completed_at := none,
        error_message := some
          ("Attempt " ++ toString (jobCurrentAttempt job) ++ "/" ++
            toString cfg.maxAttempts ++ " failed: " ++
            pySlice 320 (workerErrorText excMsg) ++ ". Retrying in " ++
            toString (retryDelaySeconds (jobCurrentAttempt job : Int) cfg.baseBackoff) ++
            "s.") },
      "retrying")
  else
    ({ job with
        status := JobStatus.failed,
        next_retry_at := none,
        completed_at := some now,
        error_message := some
          ("Attempt " ++ toString (jobCurrentAttempt job) ++ "/" ++
            toString cfg.maxAttempts ++ " failed: " ++
            pySlice 480 (workerErrorText excMsg)) },
      "failed")

/-- Whether `job_type` has an entry in the `handlers` dict of `process_job`. -/
def handlerExists (job_type : String) : Bool :=
  job_type = "google_maps" ∨ job_type = "instagram"

/-- The synthetic total-failure message `process_job` raises when every
target failed: failed count plus the first three per-target errors. -/
def totalFailureMsg (outcome : JobRunOutcome) : String :=
  pyStrip ("All " ++ toString outcome.failed_targets ++ " target(s) failed. " ++
    String.intercalate "; " (outcome.target_errors.take 3))

/-- The bounded partial-failure summary written on the
`completed_with_errors` path. -/
def partialFailureMsg (targetsLen : Nat) (outcome : JobRunOutcome) : String :=
  pySlice 480
    (pyStrip (toString outcome.failed_targets ++ "/" ++ toString targetsLen ++
      " target(s) failed. " ++
      String.intercalate "; " (outcome.target_errors.take 3)))

/-- The row state `process_job` commits on the success path (full or
partial), starting from the claim-committed row. -/
def successRow (nowDone : Int) (targetsLen : Nat) (outcome : JobRunOutcome)
    (job1 : Job) : Job :=
  if outcome.failed_targets > 0 then
    { job1 with
      status := JobStatus.completed_with_errors,
      error_message := some (partialFailureMsg targetsLen outcome),
      leads_found := outcome.total_leads,
      completed_at := some nowDone,
      next_retry_at := none }
  else
    { job1 with
      status := JobStatus.completed,
      error_message := none,
      leads_found := outcome.total_leads,
      completed_at := some nowDone,
      next_retry_at := none }

/-- Python truthiness of the `customer_id` column in `if customer_id:`. -/
def truthyCustomer : Option Nat → Option Nat
  | none => none
  | some c => if c = 0 then none else some c

/-- What one `process_job` call did to the row, and which side effects it
issued.  `claimCommit`/`successCommit` are the row states committed at the
claim step and at the success step (in that order); `usageCall` is the
`increment_usage(customer_id, leads_delta)` invocation, issued after the
success commit when present. -/
structure ProcessResult where
  final : Job
  claimCommit : Option Job
  successCommit : Option Job
  usageCall : Option (Nat × Nat)
deriving DecidableEq, Repr

/-- Result of the `except Exception` handler when the exception was
raised before the success commit: the re-fetched row is the
claim-committed one, which `_schedule_retry_or_fail` mutates and commits. -/
def failResult (cfg : Config) (now : Int) (job1 : Job) (msg : String) :
    ProcessResult :=
  { final := (scheduleRetryOrFail cfg now job1 msg).1,
    claimCommit := some job1, successCommit := none, usageCall := none }

/-- `process_job`: claim guard, claim commit, decode, handler lookup,
executor run, outcome aggregation, success commit, usage side call; every
exception is caught and routed through `_schedule_retry_or_fail` against
the freshly re-fetched row (which, single-writer, equals the last
committed state: the claim-committed row for decode/handler/total-failure
errors, the success-committed row for an `increment_usage` error). -/
def processJob (cfg : Config) (runTarget : Target → Except String Nat)
    (usageRaise : Option String) (nowClaim nowDone : Int) (job0 : Job) :
    ProcessResult :=
  if job0.status ≠ JobStatus.pending ∧ job0.status ≠ JobStatus.running then
    { final := job0, claimCommit := none, successCommit := none, usageCall := none }
  else
    let job1 := markJobRunning nowClaim job0
    match decodeTargets job0.targets with
    | Except.error msg => failResult cfg nowDone job1 msg
    | Except.ok targets =>
      if handlerExists job0.job_type then
        let outcome := runJobTargets runTarget targets
        if outcome.failed_targets > 0 ∧ outcome.total_leads = 0 then
          failResult cfg nowDone job1 (totalFailureMsg outcome)
        else
          let job2 := successRow nowDone targets.length outcome job1
          match truthyCustomer job0.customer_id with
          | none =>
            { final := job2, claimCommit := some job1,
              successCommit := some job2, usageCall := none }
          | some cid =>
            match usageRaise with
            | none =>
              { final := job2, claimCommit := some job1,
                successCommit := some job2,
                usageCall := some (cid, outcome.total_leads) }
            | some msg =>
              { final := (scheduleRetryOrFail cfg nowDone job2 msg).1,
                claimCommit := some job1, successCommit := some job2,
                usageCall := some (cid, outcome.total_leads) }
      else failResult cfg nowDone job1 ("Unknown job type: " ++ job0.job_type)

/-- Staleness test of `recover_stuck_running_jobs`: running, with a
recorded `started_at` strictly before the threshold. -/
def isStuck (threshold : Int) (j : Job) : Bool :=
  decide (j.status = JobStatus.running) &&
    match j.started_at with
    | none => false
    | some s => decide (s < threshold)

/-- Per-row action of the reaper on a selected stale job. -/
def reapJob (maxAttempts : Nat) (now threshold : Int) (j : Job) : Job :=
  if isStuck threshold j then
    if j.attempt_count ≥ maxAttempts then
      { j with
        status := JobStatus.failed,
        next_retry_at := none,
        completed_at := some now,
        error_message := some
          ("Marked failed after stale RUNNING timeout (" ++
            toString j.attempt_count ++ "/" ++ toString maxAttempts ++ " attempts).") }
    else
      { j with
        status := JobStatus.pending,
        next_retry_at := some now,
        completed_at := none,
        started_at := none,
        error_message := some
          ("Recovered stale RUNNING job; requeued for retry (" ++
            toString (j.attempt_count + 1) ++ "/" ++ toString maxAttempts ++ ").") }
  else j

/-- `recover_stuck_running_jobs` over the whole job table: threshold is
`now - max(30, timeout)` seconds; returns the updated table and the
recovered count. -/
def recoverStuckRunningJobs (maxAttempts : Nat) (timeoutSeconds : Nat) (now : Int)
    (jobs : List Job) : List Job × Nat :=
  let threshold := now - ((max 30 timeoutSeconds : Nat) : Int)
  (jobs.map (reapJob maxAttempts now threshold),
    (jobs.filter (isStuck threshold)).length)

/-- Claim eligibility (`status == pending AND (next_retry_at IS NULL OR
next_retry_at <= now)`). -/
def eligibleB (now : Int) (j : Job) : Bool :=
  decide (j.status = JobStatus.pending) &&
    match j.next_retry_at with
    | none => true
    | some t => decide (t ≤ now)

/-- Keep the older of a candidate job and a previously selected one,
the candidate winning ties. -/
def olderOf (j : Job) : Option Job → Option Job
  | none => some j
  | some b => if j.created_at ≤ b.created_at then some j else some b

/-- Oldest-by-`created_at` element, earliest listed winning ties
(`order_by(created_at.asc()).first()`). -/
def pickOldest : List Job → Option Job
  | [] => none
  | j :: rest => olderOf j (pickOldest rest)

/-- The selection query of `process_next_pending_job`. -/
def selectNextJob (now : Int) (jobs : List Job) : Option Job :=
  pickOldest (jobs.filter (eligibleB now))

/-- `process_next_pending_job`: run the reaper, then select the oldest
eligible pending job; if none, claim nothing and report `false`
(the poll loop then sleeps); else process the selected id and report
`true`.  Job ids are unique in the table. -/
def processNextPendingJob (cfg : Config) (timeoutSeconds : Nat)
    (runTarget : Target → Except String Nat) (usageRaise : Option String)
    (now nowDone : Int) (jobs : List Job) : List Job × Bool :=
  let reaped := (recoverStuckRunningJobs cfg.maxAttempts timeoutSeconds now jobs).1
  match selectNextJob now reaped with
  | none => (reaped, false)
  | some j =>
    (reaped.map (fun k =>
        if k.id = j.id then
          (processJob cfg runTarget usageRaise now nowDone k).final
        else k),
      true)

/-- What one iteration of `run_worker` does after `process_next_pending_job`
returns: process the claimed job, or sleep for the poll interval. -/
inductive CycleAction where
  | processed (jobId : Nat)
  | sleep
deriving DecidableEq, Repr

/-- One cycle of the `run_worker` loop, reduced to its observable action. -/
def workerCycleAction (cfg : Config) (timeoutSeconds : Nat) (now : Int)
    (jobs : List Job) : CycleAction :=
  let reaped := (recoverStuckRunningJobs cfg.maxAttempts timeoutSeconds now jobs).1
  match selectNextJob now reaped with
  | none => CycleAction.sleep
  | some j => CycleAction.processed j.id

/-! Path lemmas: one equation per control path of `process_job`. -/

theorem processJob_not_claimable (cfg : Config) (rt : Target → Except String Nat)
    (u : Option String) (n1 n2 : Int) (job0 : Job)
    (h : job0.status ≠ JobStatus.pending ∧ job0.status ≠ JobStatus.running) :
    processJob cfg rt u n1 n2 job0 =
      { final := job0, claimCommit := none, successCommit := none, usageCall := none } := by
  unfold processJob
  rw [if_pos h]

theorem not_guard_of_claimable {job0 : Job}
    (h : job0.status = JobStatus.pending ∨ job0.status = JobStatus.running) :
    ¬(job0.status ≠ JobStatus.pending ∧ job0.status ≠ JobStatus.running) := by
  rcases h with h | h <;> simp [h]

theorem processJob_decode_error (cfg : Config) (rt : Target → Except String Nat)
    (u : Option String) (n1 n2 : Int) (job0 : Job) (msg : String)
    (h : job0.status = JobStatus.pending ∨ job0.status = JobStatus.running)
    (hdec : decodeTargets job0.targets = Except.error msg) :
    processJob cfg rt u n1 n2 job0 =
      failResult cfg n2 (markJobRunning n1 job0) msg := by
  unfold processJob
  rw [if_neg (not_guard_of_claimable h), hdec]

theorem processJob_unknown_type (cfg : Config) (rt : Target → Except String Nat)
    (u : Option String) (n1 n2 : Int) (job0 : Job) (targets : List Target)
    (h : job0.status = JobStatus.pending ∨ job0.status = JobStatus.running)
    (hdec : decodeTargets job0.targets = Except.ok targets)
    (hh : handlerExists job0.job_type = false) :
    processJob cfg rt u n1 n2 job0 =
      failResult cfg n2 (markJobRunning n1 job0)
        ("Unknown job type: " ++ job0.job_type) := by
  unfold processJob
  rw [if_neg (not_guard_of_claimable h), hdec]
  simp only [hh, Bool.false_eq_true, if_false]

theorem processJob_total_failure (cfg : Config) (rt : Target → Except String Nat)
    (u : Option String) (n1 n2 : Int) (job0 : Job) (targets : List Target)
    (h : job0.status = JobStatus.pending ∨ job0.status = JobStatus.running)
    (hdec : decodeTargets job0.targets = Except.ok targets)
    (hh : handlerExists job0.job_type = true)
    (hfail : (runJobTargets rt targets).failed_targets > 0)
    (hzero : (runJobTargets rt targets).total_leads = 0) :
    processJob cfg rt u n1 n2 job0 =
      failResult cfg n2 (markJobRunning n1 job0)
        (totalFailureMsg (runJobTargets rt targets)) := by
  unfold processJob
  rw [if_neg (not_guard_of_claimable h), hdec]
  simp only [hh, if_true]
  rw [if_pos ⟨hfail, hzero⟩]

theorem processJob_success (cfg : Config) (rt : Target → Except String Nat)
    (u : Option String) (n1 n2 : Int) (job0 : Job) (targets : List Target)
    (h : job0.status = JobStatus.pending ∨ job0.status = JobStatus.running)
    (hdec : decodeTargets job0.targets = Except.ok targets)
    (hh : handlerExists job0.job_type = true)
    (hn : ¬((runJobTargets rt targets).failed_targets > 0 ∧
        (runJobTargets rt targets).total_leads = 0)) :
    processJob cfg rt u n1 n2 job0 =
      (match truthyCustomer job0.customer_id with
       | none =>
         { final := successRow n2 targets.length (runJobTargets rt targets)
             (markJobRunning n1 job0),
           claimCommit := some (markJobRunning n1 job0),
           successCommit := some (successRow n2 targets.length (runJobTargets rt targets)
             (markJobRunning n1 job0)),
           usageCall := none }
       | some cid =>
         match u with
         | none =>
           { final := successRow n2 targets.length (runJobTargets rt targets)
               (markJobRunning n1 job0),
             claimCommit := some (markJobRunning n1 job0),
             successCommit := some (successRow n2 targets.length (runJobTargets rt targets)
               (markJobRunning n1 job0)),
             usageCall := some (cid, (runJobTargets rt targets).total_leads) }
         | some msg =>
           { final := (scheduleRetryOrFail cfg n2
               (successRow n2 targets.length (runJobTargets rt targets)
                 (markJobRunning n1 job0)) msg).1,
             claimCommit := some (markJobRunning n1 job0),
             successCommit := some (successRow n2 targets.length (runJobTargets rt targets)
               (markJobRunning n1 job0)),
             usageCall := some (cid, (runJobTargets rt targets).total_leads) }) := by
  unfold processJob
  rw [if_neg (not_guard_of_claimable h), hdec]
  simp only [hh, if_true]
  rw [if_neg hn]

theorem claimCommit_of_claimable (cfg : Config) (rt : Target → Except String Nat)
    (u : Option String) (n1 n2 : Int) (job0 : Job)
    (h : job0.status = JobStatus.pending ∨ job0.status = JobStatus.running) :
    (processJob cfg rt u n1 n2 job0).claimCommit =
      some (markJobRunning n1 job0) := by
  unfold processJob
  rw [if_neg (not_guard_of_claimable h)]
  cases hdec : decodeTargets job0.targets with
  | error msg => rfl
  | ok ts =>
    cases hh : handlerExists job0.job_type with
    | false => simp only [Bool.false_eq_true, if_false]; rfl
    | true =>
      simp only [if_true]
      by_cases hf : (runJobTargets rt ts).failed_targets > 0 ∧
          (runJobTargets rt ts).total_leads = 0
      · rw [if_pos hf]; rfl
      · rw [if_neg hf]
        cases truthyCustomer job0.customer_id with
        | none => rfl
        | some cid => cases u <;> rfl

/-- C8: `_retry_delay_seconds(attempt_count, B)` equals
`B * 2^(max(1, attempt_count) - 1)`; attempts 1, 2, 3 give `B`, `2B`,
`4B`; a caller passing 0 gets `B`; and for fixed `B` the delay is
monotonically non-decreasing in the attempt count. -/
theorem c8_retryDelaySeconds_spec :
    (∀ (a : Int) (B : Nat),
      retryDelaySeconds a B = B * 2 ^ ((max 1 a).toNat - 1)) ∧
    (∀ B : Nat,
      retryDelaySeconds 1 B = B ∧ retryDelaySeconds 2 B = 2 * B ∧
      retryDelaySeconds 3 B = 4 * B ∧ retryDelaySeconds 0 B = B) ∧
    (∀ (B : Nat) (a b : Int), a ≤ b →
      retryDelaySeconds a B ≤ retryDelaySeconds b B) := by
  refine ⟨fun a B => rfl, fun B => ⟨?_, ?_, ?_, ?_⟩, fun B a b hab => ?_⟩
  · unfold retryDelaySeconds; norm_num
  · have h2 : ((max 1 (2 : Int)).toNat - 1) = 1 := by decide
    unfold retryDelaySeconds
    rw [h2]
    ring
  · have h3 : ((max 1 (3 : Int)).toNat - 1) = 2 := by decide
    unfold retryDelaySeconds
    rw [h3]
    ring
  · unfold retryDelaySeconds; norm_num
  · unfold retryDelaySeconds
    have h1 : max 1 a ≤ max 1 b := max_le_max le_rfl hab
    have h2 : (max 1 a).toNat ≤ (max 1 b).toNat := Int.toNat_le_toNat h1
    exact Nat.mul_le_mul_left B
      (Nat.pow_le_pow_right (by norm_num) (Nat.sub_le_sub_right h2 1))

/-- Witness for C8: the theorem applied at base 30 and at attempts 1 ≤ 3. -/
theorem c8_retryDelaySeconds_spec_witness :
    retryDelaySeconds 1 30 = 30 ∧ retryDelaySeconds 2 30 = 2 * 30 ∧
    retryDelaySeconds 3 30 = 4 * 30 ∧ retryDelaySeconds 0 30 = 30 ∧
    ((1 : Int) ≤ 3 ∧ retryDelaySeconds 1 30 ≤ retryDelaySeconds 3 30) :=
  ⟨(c8_retryDelaySeconds_spec.2.1 30).1, (c8_retryDelaySeconds_spec.2.1 30).2.1,
   (c8_retryDelaySeconds_spec.2.1 30).2.2.1, (c8_retryDelaySeconds_spec.2.1 30).2.2.2,
   by decide, c8_retryDelaySeconds_spec.2.2 30 1 3 (by decide)⟩

/-- C6: the stale-job reaper acts exactly on jobs that are `running` with a
non-null `started_at` strictly older than `now - stuck_timeout` (a running
job with null `started_at` is never reaped); a stale job with
`attempt_count ≥ max_attempts` becomes `failed` with `next_retry_at = null`
and `completed_at = now`, otherwise it becomes `pending` with
`next_retry_at = now`, `completed_at = null` and `started_at = null`; all
other jobs are left unchanged. -/
theorem c6_reaper_spec (maxAttempts timeout : Nat) (now : Int) (jobs : List Job)
    (htimeout : 30 ≤ timeout) :
    (recoverStuckRunningJobs maxAttempts timeout now jobs).1 =
      jobs.map (reapJob maxAttempts now (now - (timeout : Int))) ∧
    (∀ j : Job,
      isStuck (now - (timeout : Int)) j = true ↔
        j.status = JobStatus.running ∧
          ∃ s, j.started_at = some s ∧ s < now - (timeout : Int)) ∧
    (∀ j : Job, isStuck (now - (timeout : Int)) j = false →
      reapJob maxAttempts now (now - (timeout : Int)) j = j) ∧
    (∀ j : Job, j.started_at = none →
      reapJob maxAttempts now (now - (timeout : Int)) j = j) ∧
    (∀ j : Job, isStuck (now - (timeout : Int)) j = true →
      maxAttempts ≤ j.attempt_count →
      reapJob maxAttempts now (now - (timeout : Int)) j =
        { j with
          status := JobStatus.failed,
          next_retry_at := none,
          completed_at := some now,
          error_message := some ("Marked failed after stale RUNNING timeout (" ++
            toString j.attempt_count ++ "/" ++ toString maxAttempts ++ " attempts).") }) ∧
    (∀ j : Job, isStuck (now - (timeout : Int)) j = true →
      j.attempt_count < maxAttempts →
      reapJob maxAttempts now (now - (timeout : Int)) j =
        { j with
          status := JobStatus.pending,
          next_retry_at := some now,
          completed_at := none,
          started_at := none,
          error_message := some ("Recovered stale RUNNING job; requeued for retry (" ++
            toString (j.attempt_count + 1) ++ "/" ++ toString maxAttempts ++ ").") }) := by
  refine ⟨?_, fun j => ?_, fun j hns => ?_, fun j hnull => ?_,
    fun j hs hge => ?_, fun j hs hlt => ?_⟩
  · unfold recoverStuckRunningJobs
    rw [Nat.max_eq_right htimeout]
  · unfold isStuck
    cases hst : j.started_at with
    | none => simp [hst]
    | some s => simp [hst]
  · unfold reapJob
    rw [hns]
    simp
  · unfold reapJob
    have : isStuck (now - (timeout : Int)) j = false := by
      unfold isStuck
      rw [hnull]
      simp
    rw [this]
    simp
  · unfold reapJob
    rw [hs]
    simp only [if_true]
    rw [if_pos hge]
  · unfold reapJob
    rw [hs]
    simp only [if_true]
    rw [if_neg (Nat.not_le.mpr hlt)]

/-- Witness for C6: the theorem applied at timeout 900 to a three-job table
holding one requeueable stale job, one exhausted stale job, and one running
job with no recorded `started_at`. -/
theorem c6_reaper_spec_witness :
    (30 ≤ 900) ∧
    ((recoverStuckRunningJobs 3 900 10000
        [{ id := 2, job_type := "google_maps", targets := TargetsField.nullField,
           status := JobStatus.running, started_at := some 100, attempt_count := 1 },
         { id := 3, job_type := "google_maps", targets := TargetsField.nullField,
           status := JobStatus.running, started_at := some 100, attempt_count := 3 },
         { id := 4, job_type := "google_maps", targets := TargetsField.nullField,
           status := JobStatus.running, attempt_count := 1 }]).1 =
      [{ id := 2, job_type := "google_maps", targets := TargetsField.nullField,
         status := JobStatus.running, started_at := some 100, attempt_count := 1 },
       { id := 3, job_type := "google_maps", targets := TargetsField.nullField,
         status := JobStatus.running, started_at := some 100, attempt_count := 3 },
       { id := 4, job_type := "google_maps", targets := TargetsField.nullField,
         status := JobStatus.running, attempt_count := 1 }].map
        (reapJob 3 10000 (10000 - (900 : Int)))) :=
  ⟨by decide,
   (c6_reaper_spec 3 900 10000
      [{ id := 2, job_type := "google_maps", targets := TargetsField.nullField,
         status := JobStatus.running, started_at := some 100, attempt_count := 1 },
       { id := 3, job_type := "google_maps", targets := TargetsField.nullField,
         status := JobStatus.running, started_at := some 100, attempt_count := 3 },
       { id := 4, job_type := "google_maps", targets := TargetsField.nullField,
         status := JobStatus.running, attempt_count := 1 }]
      (by decide)).1⟩

/-- C5: the claim step is an idempotent guard: on a row whose status is not
`pending` or `running`, `process_job` returns without modifying the job;
otherwise it increments `attempt_count` by exactly one, sets
`status = running` and `started_at = now`, clears `completed_at`,
`next_retry_at` and `error_message`, and commits this transition before any
executor work (the claim-committed row does not depend on the executor or
on the usage side call). -/
theorem c5_claim_spec (cfg : Config) (rt rt2 : Target → Except String Nat)
    (u u2 : Option String) (n1 n2 : Int) (job0 : Job) :
    (job0.status ≠ JobStatus.pending ∧ job0.status ≠ JobStatus.running →
      processJob cfg rt u n1 n2 job0 =
        { final := job0, claimCommit := none, successCommit := none,
          usageCall := none }) ∧
    (job0.status = JobStatus.pending ∨ job0.status = JobStatus.running →
      (processJob cfg rt u n1 n2 job0).claimCommit =
        some { job0 with
               attempt_count := job0.attempt_count + 1,
               status := JobStatus.running,
               started_at := some n1,
               completed_at := none,
               next_retry_at := none,
               error_message := none } ∧
      (processJob cfg rt u n1 n2 job0).claimCommit =
        (processJob cfg rt2 u2 n1 n2 job0).claimCommit) := by
  refine ⟨fun hterm => processJob_not_claimable cfg rt u n1 n2 job0 hterm,
    fun h => ⟨claimCommit_of_claimable cfg rt u n1 n2 job0 h, ?_⟩⟩
  rw [claimCommit_of_claimable cfg rt u n1 n2 job0 h,
    claimCommit_of_claimable cfg rt2 u2 n1 n2 job0 h]

/-- Witness for C5: a terminal `completed` row is untouched, and a
`pending` row is claim-committed with the attempt count bumped to 1. -/
theorem c5_claim_spec_witness :
    (JobStatus.completed ≠ JobStatus.pending ∧
      JobStatus.completed ≠ JobStatus.running) ∧
    processJob { maxAttempts := 3, baseBackoff := 30 } (fun _ => Except.ok 1) none
        100 200
        { id := 5, job_type := "google_maps", targets := TargetsField.nullField,
          status := JobStatus.completed } =
      { final := { id := 5, job_type := "google_maps",
                   targets := TargetsField.nullField,
                   status := JobStatus.completed },
        claimCommit := none, successCommit := none, usageCall := none } ∧
    (processJob { maxAttempts := 3, baseBackoff := 30 } (fun _ => Except.ok 1) none
        100 200
        { id := 6, job_type := "google_maps", targets := TargetsField.nullField,
          status := JobStatus.pending }).claimCommit =
      some { id := 6, job_type := "google_maps", targets := TargetsField.nullField,
             status := JobStatus.running, attempt_count := 1,
             started_at := some 100, completed_at := none, next_retry_at := none,
             error_message := none } :=
  ⟨by decide,
   (c5_claim_spec { maxAttempts := 3, baseBackoff := 30 } (fun _ => Except.ok 1)
      (fun _ => Except.ok 1) none none 100 200
      { id := 5, job_type := "google_maps", targets := TargetsField.nullField,
        status := JobStatus.completed }).1 (by decide),
   ((c5_claim_spec { maxAttempts := 3, baseBackoff := 30 } (fun _ => Except.ok 1)
      (fun _ => Except.ok 1) none none 100 200
      { id := 6, job_type := "google_maps", targets := TargetsField.nullField,
        status := JobStatus.pending }).2 (Or.inl rfl)).1⟩

/-- C4: every exception raised during job processing (targets decode,
executor lookup for an unknown job type, or the synthetic total-failure
error) is caught and routed through `_schedule_retry_or_fail` against the
claim-committed row: with `attempt_count < max_attempts` the job becomes
`pending` with `next_retry_at = now + retry_delay_seconds(attempt_count)`,
`completed_at = null` and a truncated "Attempt i/m failed: ... Retrying in
ds." message; otherwise it becomes `failed` with `next_retry_at = null`,
`completed_at = now` and a truncated "Attempt i/m failed: ..." message.
`processJob` is a total function, embedding that no exception propagates
out of the runner to the poll loop. -/
theorem c4_failure_path_spec (cfg : Config) (rt : Target → Except String Nat)
    (u : Option String) (n1 n2 : Int) (job0 : Job)
    (h : job0.status = JobStatus.pending ∨ job0.status = JobStatus.running) :
    (∀ (job : Job) (e : String) (current delay : Nat),
      current = jobCurrentAttempt job →
      delay = retryDelaySeconds (current : Int) cfg.baseBackoff →
      ((current < cfg.maxAttempts →
        scheduleRetryOrFail cfg n2 job e =
          ({ job with
             status := JobStatus.pending,
             next_retry_at := some (n2 + (delay : Int)),
             completed_at := none,
             error_message := some
               ("Attempt " ++ toString current ++ "/" ++ toString cfg.maxAttempts ++
                 " failed: " ++ pySlice 320 (workerErrorText e) ++
                 ". Retrying in " ++ toString delay ++ "s.") }, "retrying")) ∧
       (cfg.maxAttempts ≤ current →
        scheduleRetryOrFail cfg n2 job e =
          ({ job with
             status := JobStatus.failed,
             next_retry_at := none,
             completed_at := some n2,
             error_message := some
               ("Attempt " ++ toString current ++ "/" ++ toString cfg.maxAttempts ++
                 " failed: " ++ pySlice 480 (workerErrorText e)) },
            "failed")))) ∧
    (∀ msg, decodeTargets job0.targets = Except.error msg →
      processJob cfg rt u n1 n2 job0 =
        failResult cfg n2 (markJobRunning n1 job0) msg) ∧
    (∀ ts, decodeTargets job0.targets = Except.ok ts →
      handlerExists job0.job_type = false →
      processJob cfg rt u n1 n2 job0 =
        failResult cfg n2 (markJobRunning n1 job0)
          ("Unknown job type: " ++ job0.job_type)) ∧
    (∀ ts, decodeTargets job0.targets = Except.ok ts →
      handlerExists job0.job_type = true →
      (runJobTargets rt ts).failed_targets > 0 →
      (runJobTargets rt ts).total_leads = 0 →
      processJob cfg rt u n1 n2 job0 =
        failResult cfg n2 (markJobRunning n1 job0)
          (totalFailureMsg (runJobTargets rt ts))) := by
  refine ⟨fun job e current delay hc hd => ?_,
    fun msg hdec => processJob_decode_error cfg rt u n1 n2 job0 msg h hdec,
    fun ts hdec hh => processJob_unknown_type cfg rt u n1 n2 job0 ts h hdec hh,
    fun ts hdec hh hf hz =>
      processJob_total_failure cfg rt u n1 n2 job0 ts h hdec hh hf hz⟩
  subst hc hd
  constructor
  · intro hlt
    unfold scheduleRetryOrFail
    rw [if_pos hlt]
  · intro hge
    unfold scheduleRetryOrFail
    rw [if_neg (Nat.not_lt.mpr hge)]

/-- Frame facts about `_schedule_retry_or_fail`: it never touches
`leads_found` or `attempt_count`, and never produces a terminal success
status. -/
theorem scheduleRetryOrFail_frame (cfg : Config) (now : Int) (job : Job)
    (e : String) :
    (scheduleRetryOrFail cfg now job e).1.leads_found = job.leads_found ∧
    (scheduleRetryOrFail cfg now job e).1.attempt_count = job.attempt_count ∧
    (scheduleRetryOrFail cfg now job e).1.status ≠ JobStatus.completed ∧
    (scheduleRetryOrFail cfg now job e).1.status ≠
      JobStatus.completed_with_errors := by
  unfold scheduleRetryOrFail
  by_cases hc : jobCurrentAttempt job < cfg.maxAttempts
  · rw [if_pos hc]
    exact ⟨rfl, rfl, fun hx => JobStatus.noConfusion hx,
      fun hx => JobStatus.noConfusion hx⟩
  · rw [if_neg hc]
    exact ⟨rfl, rfl, fun hx => JobStatus.noConfusion hx,
      fun hx => JobStatus.noConfusion hx⟩

/-- On the retrying branch, the row becomes pending with
`next_retry_at = now + delay`. -/
theorem scheduleRetryOrFail_retry_fields (cfg : Config) (now : Int) (job : Job)
    (e : String) (hlt : jobCurrentAttempt job < cfg.maxAttempts) :
    (scheduleRetryOrFail cfg now job e).1.status = JobStatus.pending ∧
    (scheduleRetryOrFail cfg now job e).1.next_retry_at =
      some (now + (retryDelaySeconds (jobCurrentAttempt job : Int)
        cfg.baseBackoff : Int)) := by
  unfold scheduleRetryOrFail
  rw [if_pos hlt]
  exact ⟨rfl, rfl⟩

/-- Witness for C4: a pending job with malformed `targets` JSON at its
first attempt is rescheduled as pending with a 30-second backoff and the
retrying message. -/
theorem c4_failure_path_spec_witness :
    (JobStatus.pending = JobStatus.pending ∨
      JobStatus.pending = JobStatus.running) ∧
    decodeTargets (TargetsField.malformed "oops") = Except.error "Invalid JSON: oops" ∧
    processJob { maxAttempts := 3, baseBackoff := 30 } (fun _ => Except.ok 1) none
        100 200
        { id := 8, job_type := "google_maps",
          targets := TargetsField.malformed "oops", status := JobStatus.pending } =
      failResult { maxAttempts := 3, baseBackoff := 30 } 200
        (markJobRunning 100
          { id := 8, job_type := "google_maps",
            targets := TargetsField.malformed "oops", status := JobStatus.pending })
        "Invalid JSON: oops" :=
  ⟨Or.inl rfl, rfl,
   (c4_failure_path_spec { maxAttempts := 3, baseBackoff := 30 }
      (fun _ => Except.ok 1) none 100 200
      { id := 8, job_type := "google_maps",
        targets := TargetsField.malformed "oops", status := JobStatus.pending }
      (Or.inl rfl)).2.1 "Invalid JSON: oops" rfl⟩

theorem retryDelaySeconds_pos (a : Int) (base : Nat) (hb : 1 ≤ base) :
    1 ≤ retryDelaySeconds a base := by
  unfold retryDelaySeconds
  exact Nat.mul_le_mul hb Nat.one_le_two_pow

/-- C2: when the executor outcome has `failed_targets > 0` and no leads,
the runner does not set a terminal success state: it raises the synthetic
error naming the failed count and the first per-target error strings and
routes the job through `_schedule_retry_or_fail` against the
claim-committed row, leaving `leads_found` unchanged from its value before
the attempt; below `max_attempts` the job ends `pending` with an
incremented `attempt_count` and a strictly future `next_retry_at`. -/
theorem c2_total_failure_spec (cfg : Config) (rt : Target → Except String Nat)
    (u : Option String) (n1 n2 : Int) (job0 : Job) (ts : List Target)
    (h : job0.status = JobStatus.pending ∨ job0.status = JobStatus.running)
    (hdec : decodeTargets job0.targets = Except.ok ts)
    (hh : handlerExists job0.job_type = true)
    (hf : (runJobTargets rt ts).failed_targets > 0)
    (hz : (runJobTargets rt ts).total_leads = 0)
    (hbase : 1 ≤ cfg.baseBackoff) :
    processJob cfg rt u n1 n2 job0 =
      failResult cfg n2 (markJobRunning n1 job0)
        (totalFailureMsg (runJobTargets rt ts)) ∧
    totalFailureMsg (runJobTargets rt ts) =
      pyStrip ("All " ++ toString (runJobTargets rt ts).failed_targets ++
        " target(s) failed. " ++
        String.intercalate "; " ((runJobTargets rt ts).target_errors.take 3)) ∧
    (processJob cfg rt u n1 n2 job0).final.leads_found = job0.leads_found ∧
    (processJob cfg rt u n1 n2 job0).final.status ≠ JobStatus.completed ∧
    (processJob cfg rt u n1 n2 job0).final.status ≠
      JobStatus.completed_with_errors ∧
    (processJob cfg rt u n1 n2 job0).successCommit = none ∧
    (processJob cfg rt u n1 n2 job0).usageCall = none ∧
    (job0.attempt_count + 1 < cfg.maxAttempts →
      (processJob cfg rt u n1 n2 job0).final.status = JobStatus.pending ∧
      (processJob cfg rt u n1 n2 job0).final.attempt_count =
        job0.attempt_count + 1 ∧
      ∃ t, (processJob cfg rt u n1 n2 job0).final.next_retry_at = some t ∧
        n2 < t) := by
  have heq := processJob_total_failure cfg rt u n1 n2 job0 ts h hdec hh hf hz
  have hcur : jobCurrentAttempt (markJobRunning n1 job0) =
      job0.attempt_count + 1 := by
    unfold jobCurrentAttempt markJobRunning
    simp
  refine ⟨heq, rfl, ?_, ?_, ?_, ?_, ?_, fun hcase => ?_⟩
  · rw [heq]
    exact (scheduleRetryOrFail_frame cfg n2 (markJobRunning n1 job0)
      (totalFailureMsg (runJobTargets rt ts))).1
  · rw [heq]
    exact (scheduleRetryOrFail_frame cfg n2 (markJobRunning n1 job0)
      (totalFailureMsg (runJobTargets rt ts))).2.2.1
  · rw [heq]
    exact (scheduleRetryOrFail_frame cfg n2 (markJobRunning n1 job0)
      (totalFailureMsg (runJobTargets rt ts))).2.2.2
  · rw [heq]
    rfl
  · rw [heq]
    rfl
  · rw [heq]
    have hlt : jobCurrentAttempt (markJobRunning n1 job0) < cfg.maxAttempts := by
      rw [hcur]; exact hcase
    have hretry := scheduleRetryOrFail_retry_fields cfg n2 (markJobRunning n1 job0)
      (totalFailureMsg (runJobTargets rt ts)) hlt
    refine ⟨hretry.1, ?_, ?_⟩
    · exact (scheduleRetryOrFail_frame cfg n2 (markJobRunning n1 job0)
        (totalFailureMsg (runJobTargets rt ts))).2.1
    · refine ⟨_, hretry.2, ?_⟩
      have hd := retryDelaySeconds_pos
        ((jobCurrentAttempt (markJobRunning n1 job0)) : Int) cfg.baseBackoff hbase
      have hd2 : (1 : Int) ≤
          (retryDelaySeconds ((jobCurrentAttempt (markJobRunning n1 job0)) : Int)
            cfg.baseBackoff : Int) := by exact_mod_cast hd
      omega

/-- Witness for C2: two targets that both raise, attempt count 0 going in,
max attempts 3; the job ends pending with attempt count 1 and a future
`next_retry_at`. -/
theorem c2_total_failure_spec_witness :
    ((runJobTargets (fun _ => Except.error "provider unavailable")
        [{ city := some "Fail One" }, { city := some "Fail Two" }]).failed_targets > 0) ∧
    ((runJobTargets (fun _ => Except.error "provider unavailable")
        [{ city := some "Fail One" }, { city := some "Fail Two" }]).total_leads = 0) ∧
    ((0 + 1 < 3) ∧
     (processJob { maxAttempts := 3, baseBackoff := 30 }
        (fun _ => Except.error "provider unavailable") none 100 200
        { id := 9, job_type := "google_maps",
          targets := TargetsField.jsonArr
            [{ city := some "Fail One" }, { city := some "Fail Two" }],
          status := JobStatus.pending }).final.status = JobStatus.pending ∧
     (processJob { maxAttempts := 3, baseBackoff := 30 }
        (fun _ => Except.error "provider unavailable") none 100 200
        { id := 9, job_type := "google_maps",
          targets := TargetsField.jsonArr
            [{ city := some "Fail One" }, { city := some "Fail Two" }],
          status := JobStatus.pending }).final.attempt_count = 1 ∧
     ∃ t, (processJob { maxAttempts := 3, baseBackoff := 30 }
        (fun _ => Except.error "provider unavailable") none 100 200
        { id := 9, job_type := "google_maps",
          targets := TargetsField.jsonArr
            [{ city := some "Fail One" }, { city := some "Fail Two" }],
          status := JobStatus.pending }).final.next_retry_at = some t ∧
        (200 : Int) < t) :=
  ⟨by decide, by decide,
   by
    have hres := (c2_total_failure_spec { maxAttempts := 3, baseBackoff := 30 }
      (fun _ => Except.error "provider unavailable") none 100 200
      { id := 9, job_type := "google_maps",
        targets := TargetsField.jsonArr
          [{ city := some "Fail One" }, { city := some "Fail Two" }],
        status := JobStatus.pending }
      [{ city := some "Fail One" }, { city := some "Fail Two" }]
      (Or.inl rfl) rfl (by decide) (by decide) (by decide)
      (by decide)).2.2.2.2.2.2.2 (by decide)
    exact ⟨by decide, hres.1, hres.2.1, hres.2.2⟩⟩

/-- C3: when the executor outcome has `failed_targets > 0` and
`leads_produced > 0`, the runner sets `status = completed_with_errors`,
`leads_found = leads_produced`, `completed_at = now`,
`next_retry_at = null`, and an error message of the form
"failed/total target(s) failed. ..." truncated to 480 characters; the
committed success row is the final row (side call returning normally). -/
theorem c3_partial_success_spec (cfg : Config) (rt : Target → Except String Nat)
    (n1 n2 : Int) (job0 : Job) (ts : List Target)
    (h : job0.status = JobStatus.pending ∨ job0.status = JobStatus.running)
    (hdec : decodeTargets job0.targets = Except.ok ts)
    (hh : handlerExists job0.job_type = true)
    (hf : (runJobTargets rt ts).failed_targets > 0)
    (hpos : (runJobTargets rt ts).total_leads > 0) :
    (processJob cfg rt none n1 n2 job0).final =
      { markJobRunning n1 job0 with
        status := JobStatus.completed_with_errors,
        error_message := some (partialFailureMsg ts.length (runJobTargets rt ts)),
        leads_found := (runJobTargets rt ts).total_leads,
        completed_at := some n2,
        next_retry_at := none } ∧
    partialFailureMsg ts.length (runJobTargets rt ts) =
      pySlice 480
        (pyStrip (toString (runJobTargets rt ts).failed_targets ++ "/" ++
          toString ts.length ++ " target(s) failed. " ++
          String.intercalate "; " ((runJobTargets rt ts).target_errors.take 3))) ∧
    (processJob cfg rt none n1 n2 job0).successCommit =
      some (processJob cfg rt none n1 n2 job0).final := by
  have hn : ¬((runJobTargets rt ts).failed_targets > 0 ∧
      (runJobTargets rt ts).total_leads = 0) := by
    intro hx
    omega
  have heq := processJob_success cfg rt none n1 n2 job0 ts h hdec hh hn
  have hrow : successRow n2 ts.length (runJobTargets rt ts) (markJobRunning n1 job0) =
      { markJobRunning n1 job0 with
        status := JobStatus.completed_with_errors,
        error_message := some (partialFailureMsg ts.length (runJobTargets rt ts)),
        leads_found := (runJobTargets rt ts).total_leads,
        completed_at := some n2,
        next_retry_at := none } := by
    unfold successRow
    rw [if_pos hf]
  refine ⟨?_, rfl, ?_⟩
  · rw [heq]
    cases truthyCustomer job0.customer_id with
    | none => exact hrow
    | some cid => exact hrow
  · rw [heq]
    cases truthyCustomer job0.customer_id with
    | none => rfl
    | some cid => rfl

set_option maxRecDepth 2000 in
/-- Witness for C3: two targets, one producing 3 leads and one raising;
the job ends `completed_with_errors` with `leads_found = 3` and an error
message starting with "1/2". -/
theorem c3_partial_success_spec_witness :
    ((runJobTargets
        (fun t => if t.city = some "Broken City" then Except.error "provider timeout"
          else Except.ok 3)
        [{ city := some "Healthy City" }, { city := some "Broken City" }]).failed_targets
      > 0) ∧
    ((runJobTargets
        (fun t => if t.city = some "Broken City" then Except.error "provider timeout"
          else Except.ok 3)
        [{ city := some "Healthy City" }, { city := some "Broken City" }]).total_leads
      > 0) ∧
    (processJob { maxAttempts := 3, baseBackoff := 30 }
        (fun t => if t.city = some "Broken City" then Except.error "provider timeout"
          else Except.ok 3) none 100 200
        { id := 10, customer_id := some 1, job_type := "google_maps",
          targets := TargetsField.jsonArr
            [{ city := some "Healthy City" }, { city := some "Broken City" }],
          status := JobStatus.pending }).final.status =
      JobStatus.completed_with_errors ∧
    (processJob { maxAttempts := 3, baseBackoff := 30 }
        (fun t => if t.city = some "Broken City" then Except.error "provider timeout"
          else Except.ok 3) none 100 200
        { id := 10, customer_id := some 1, job_type := "google_maps",
          targets := TargetsField.jsonArr
            [{ city := some "Healthy City" }, { city := some "Broken City" }],
          status := JobStatus.pending }).final.leads_found = 3 ∧
    pySlice 3
      ((processJob { maxAttempts := 3, baseBackoff := 30 }
        (fun t => if t.city = some "Broken City" then Except.error "provider timeout"
          else Except.ok 3) none 100 200
        { id := 10, customer_id := some 1, job_type := "google_maps",
          targets := TargetsField.jsonArr
            [{ city := some "Healthy City" }, { city := some "Broken City" }],
          status := JobStatus.pending }).final.error_message.getD "") = "1/2" :=
  ⟨by decide, by decide,
   by
    have hres := (c3_partial_success_spec { maxAttempts := 3, baseBackoff := 30 }
      (fun t => if t.city = some "Broken City" then Except.error "provider timeout"
        else Except.ok 3) 100 200
      { id := 10, customer_id := some 1, job_type := "google_maps",
        targets := TargetsField.jsonArr
          [{ city := some "Healthy City" }, { city := some "Broken City" }],
        status := JobStatus.pending }
      [{ city := some "Healthy City" }, { city := some "Broken City" }]
      (Or.inl rfl) rfl (by decide) (by decide) (by decide)).1
    rw [hres],
   by rfl, by rfl⟩

theorem successRow_leads (n2 : Int) (len : Nat) (o : JobRunOutcome) (j1 : Job) :
    (successRow n2 len o j1).leads_found = o.total_leads := by
  unfold successRow
  by_cases hf : o.failed_targets > 0
  · rw [if_pos hf]
  · rw [if_neg hf]

/-- C10: a job whose `targets` field decodes to the empty list (including
a null or empty targets string, which is coalesced to "[]") is processed
to `status = completed` with `leads_found = 0`, `error_message = null`,
`next_retry_at = null` and `completed_at` set: an empty-target job is a
success, not a failure. -/
theorem c10_empty_targets_spec (cfg : Config) (rt : Target → Except String Nat)
    (n1 n2 : Int) (job0 : Job)
    (h : job0.status = JobStatus.pending ∨ job0.status = JobStatus.running)
    (hh : handlerExists job0.job_type = true)
    (hdec : decodeTargets job0.targets = Except.ok []) :
    decodeTargets TargetsField.nullField = Except.ok [] ∧
    decodeTargets TargetsField.emptyStr = Except.ok [] ∧
    (processJob cfg rt none n1 n2 job0).final.status = JobStatus.completed ∧
    (processJob cfg rt none n1 n2 job0).final.leads_found = 0 ∧
    (processJob cfg rt none n1 n2 job0).final.error_message = none ∧
    (processJob cfg rt none n1 n2 job0).final.next_retry_at = none ∧
    (processJob cfg rt none n1 n2 job0).final.completed_at = some n2 := by
  have hn : ¬((runJobTargets rt []).failed_targets > 0 ∧
      (runJobTargets rt []).total_leads = 0) := by
    simp [runJobTargets]
  have heq := processJob_success cfg rt none n1 n2 job0 [] h hdec hh hn
  refine ⟨rfl, rfl, ?_, ?_, ?_, ?_, ?_⟩ <;> rw [heq] <;>
    cases truthyCustomer job0.customer_id with
    | none => rfl
    | some cid => rfl

/-- Witness for C10: a pending job with a NULL targets column ends
completed with no leads and no error. -/
theorem c10_empty_targets_spec_witness :
    (JobStatus.pending = JobStatus.pending ∨
      JobStatus.pending = JobStatus.running) ∧
    handlerExists "google_maps" = true ∧
    decodeTargets TargetsField.nullField = Except.ok [] ∧
    (processJob { maxAttempts := 3, baseBackoff := 30 } (fun _ => Except.ok 5) none
        100 200
        { id := 12, customer_id := some 1, job_type := "google_maps",
          targets := TargetsField.nullField,
          status := JobStatus.pending }).final.status = JobStatus.completed ∧
    (processJob { maxAttempts := 3, baseBackoff := 30 } (fun _ => Except.ok 5) none
        100 200
        { id := 12, customer_id := some 1, job_type := "google_maps",
          targets := TargetsField.nullField,
          status := JobStatus.pending }).final.leads_found = 0 ∧
    (processJob { maxAttempts := 3, baseBackoff := 30 } (fun _ => Except.ok 5) none
        100 200
        { id := 12, customer_id := some 1, job_type := "google_maps",
          targets := TargetsField.nullField,
          status := JobStatus.pending }).final.error_message = none :=
  ⟨Or.inl rfl, rfl, rfl,
   (c10_empty_targets_spec { maxAttempts := 3, baseBackoff := 30 }
      (fun _ => Except.ok 5) 100 200
      { id := 12, customer_id := some 1, job_type := "google_maps",
        targets := TargetsField.nullField, status := JobStatus.pending }
      (Or.inl rfl) rfl rfl).2.2.1,
   (c10_empty_targets_spec { maxAttempts := 3, baseBackoff := 30 }
      (fun _ => Except.ok 5) 100 200
      { id := 12, customer_id := some 1, job_type := "google_maps",
        targets := TargetsField.nullField, status := JobStatus.pending }
      (Or.inl rfl) rfl rfl).2.2.2.1,
   (c10_empty_targets_spec { maxAttempts := 3, baseBackoff := 30 }
      (fun _ => Except.ok 5) 100 200
      { id := 12, customer_id := some 1, job_type := "google_maps",
        targets := TargetsField.nullField, status := JobStatus.pending }
      (Or.inl rfl) rfl rfl).2.2.2.2.1⟩

/-- C9 counterexample: with an empty target list and tenant id 1, the job
ends `completed` with `leads_found = 0`, yet `increment_usage` is invoked
(with `leads_delta = 0`): the source guards the call only by
`if customer_id:`, not by `leads_found > 0`, so the call is not restricted
to `leads_found > 0` as the claim states. -/
theorem c9_usage_leads_guard_counterexample :
    (processJob { maxAttempts := 3, baseBackoff := 30 } (fun _ => Except.ok 0) none
        100 200
        { id := 11, customer_id := some 1, job_type := "google_maps",
          targets := TargetsField.nullField,
          status := JobStatus.pending }).usageCall = some (1, 0) ∧
    (processJob { maxAttempts := 3, baseBackoff := 30 } (fun _ => Except.ok 0) none
        100 200
        { id := 11, customer_id := some 1, job_type := "google_maps",
          targets := TargetsField.nullField,
          status := JobStatus.pending }).final.leads_found = 0 ∧
    (processJob { maxAttempts := 3, baseBackoff := 30 } (fun _ => Except.ok 0) none
        100 200
        { id := 11, customer_id := some 1, job_type := "google_maps",
          targets := TargetsField.nullField,
          status := JobStatus.pending }).final.status = JobStatus.completed :=
  ⟨rfl, rfl, rfl⟩

/-- C9 (amended): `increment_usage(customer_id, leads_delta = leads_found)`
is invoked exactly once, and only once the job row's success commit exists,
precisely when the job reaches full or partial success with a non-null
(truthy) `tenant_id` — regardless of whether `leads_found > 0`; it is not
invoked on the failure/retry path or for a null `tenant_id`.  In
`processJob` the recorded call is issued after the success commit by
construction. -/
theorem c9_usage_call_spec (cfg : Config) (rt : Target → Except String Nat)
    (u : Option String) (n1 n2 : Int) (job0 : Job) :
    ((processJob cfg rt u n1 n2 job0).usageCall.isSome = true ↔
      ((processJob cfg rt u n1 n2 job0).successCommit.isSome = true ∧
        ∃ cid, job0.customer_id = some cid ∧ cid ≠ 0)) ∧
    (∀ cid d, (processJob cfg rt u n1 n2 job0).usageCall = some (cid, d) →
      job0.customer_id = some cid ∧
      ∃ j2, (processJob cfg rt u n1 n2 job0).successCommit = some j2 ∧
        d = j2.leads_found) := by
  by_cases hg : job0.status ≠ JobStatus.pending ∧ job0.status ≠ JobStatus.running
  · rw [processJob_not_claimable cfg rt u n1 n2 job0 hg]
    constructor
    · simp
    · intro cid d hx
      simp at hx
  · have h : job0.status = JobStatus.pending ∨ job0.status = JobStatus.running := by
      by_contra hc
      push_neg at hc
      exact hg ⟨hc.1, hc.2⟩
    cases hdec : decodeTargets job0.targets with
    | error msg =>
      rw [processJob_decode_error cfg rt u n1 n2 job0 msg h hdec]
      constructor
      · simp [failResult]
      · intro cid d hx
        simp [failResult] at hx
    | ok ts =>
      cases hh : handlerExists job0.job_type with
      | false =>
        rw [processJob_unknown_type cfg rt u n1 n2 job0 ts h hdec hh]
        constructor
        · simp [failResult]
        · intro cid d hx
          simp [failResult] at hx
      | true =>
        by_cases hf : (runJobTargets rt ts).failed_targets > 0 ∧
            (runJobTargets rt ts).total_leads = 0
        · rw [processJob_total_failure cfg rt u n1 n2 job0 ts h hdec hh hf.1 hf.2]
          constructor
          · simp [failResult]
          · intro cid d hx
            simp [failResult] at hx
        · rw [processJob_success cfg rt u n1 n2 job0 ts h hdec hh hf]
          cases htc : truthyCustomer job0.customer_id with
          | none =>
            have hnone : ∀ cid, job0.customer_id = some cid → cid = 0 := by
              intro cid hcid
              by_contra hz
              rw [hcid] at htc
              simp [truthyCustomer, hz] at htc
            constructor
            · constructor
              · intro habs
                simp at habs
              · rintro ⟨hsc, cid, hcid, hcid0⟩
                exact absurd (hnone cid hcid) hcid0
            · intro cid d hx
              simp at hx
          | some cid0 =>
            have hcust : job0.customer_id = some cid0 ∧ cid0 ≠ 0 := by
              cases hc0 : job0.customer_id with
              | none =>
                rw [hc0] at htc
                simp [truthyCustomer] at htc
              | some c =>
                rw [hc0] at htc
                by_cases hz : c = 0
                · simp [truthyCustomer, hz] at htc
                · simp [truthyCustomer, hz] at htc
                  subst htc
                  exact ⟨rfl, hz⟩
            cases u with
            | none =>
              constructor
              · constructor
                · intro _
                  exact ⟨rfl, cid0, hcust.1, hcust.2⟩
                · intro _
                  simp
              · intro cid d hx
                have hcd : cid = cid0 ∧ d = (runJobTargets rt ts).total_leads := by
                  simp at hx
                  exact ⟨hx.1.symm, hx.2.symm⟩
                refine ⟨hcd.1 ▸ hcust.1, _, rfl, ?_⟩
                rw [hcd.2, successRow_leads]
            | some msg =>
              constructor
              · constructor
                · intro _
                  exact ⟨rfl, cid0, hcust.1, hcust.2⟩
                · intro _
                  simp
              · intro cid d hx
                have hcd : cid = cid0 ∧ d = (runJobTargets rt ts).total_leads := by
                  simp at hx
                  exact ⟨hx.1.symm, hx.2.symm⟩
                refine ⟨hcd.1 ▸ hcust.1, _, rfl, ?_⟩
                rw [hcd.2, successRow_leads]

/-- Witness for C9 (amended): a partial-success job owned by tenant 1
triggers exactly the call `increment_usage(1, 3)`, and the recorded
`leads_delta` equals the committed `leads_found`. -/
theorem c9_usage_call_spec_witness :
    (processJob { maxAttempts := 3, baseBackoff := 30 }
        (fun t => if t.city = some "Broken City" then Except.error "provider timeout"
          else Except.ok 3) none 100 200
        { id := 13, customer_id := some 1, job_type := "google_maps",
          targets := TargetsField.jsonArr
            [{ city := some "Healthy City" }, { city := some "Broken City" }],
          status := JobStatus.pending }).usageCall = some (1, 3) ∧
    ({ id := 13, customer_id := some 1, job_type := "google_maps",
       targets := TargetsField.jsonArr
         [{ city := some "Healthy City" }, { city := some "Broken City" }],
       status := JobStatus.pending : Job }.customer_id = some 1 ∧
      ∃ j2, (processJob { maxAttempts := 3, baseBackoff := 30 }
        (fun t => if t.city = some "Broken City" then Except.error "provider timeout"
          else Except.ok 3) none 100 200
        { id := 13, customer_id := some 1, job_type := "google_maps",
          targets := TargetsField.jsonArr
            [{ city := some "Healthy City" }, { city := some "Broken City" }],
          status := JobStatus.pending }).successCommit = some j2 ∧
        3 = j2.leads_found) :=
  ⟨rfl,
   (c9_usage_call_spec { maxAttempts := 3, baseBackoff := 30 }
      (fun t => if t.city = some "Broken City" then Except.error "provider timeout"
        else Except.ok 3) none 100 200
      { id := 13, customer_id := some 1, job_type := "google_maps",
        targets := TargetsField.jsonArr
          [{ city := some "Healthy City" }, { city := some "Broken City" }],
        status := JobStatus.pending }).2 1 3 rfl⟩

/-- C1 (code evaluation at the failing input): a job that reaches the
success commit (`completed`, `completed_at = 200`, `next_retry_at = null`)
and whose `increment_usage` call then raises does NOT keep its committed
terminal state: `process_job`'s exception handler re-fetches the row and
runs `_schedule_retry_or_fail` on it, so the final row is `pending` with
`completed_at = null` and `next_retry_at = 230` — the committed success
status and timestamps are overwritten, contradicting the claim. -/
theorem c1_usage_raise_overwrites_terminal :
    ((processJob { maxAttempts := 3, baseBackoff := 30 } (fun _ => Except.ok 2)
        (some "usage db error") 100 200
        { id := 7, customer_id := some 1, job_type := "google_maps",
          targets := TargetsField.jsonArr [{ city := some "X" }],
          status := JobStatus.pending }).successCommit.map Job.status =
      some JobStatus.completed) ∧
    ((processJob { maxAttempts := 3, baseBackoff := 30 } (fun _ => Except.ok 2)
        (some "usage db error") 100 200
        { id := 7, customer_id := some 1, job_type := "google_maps",
          targets := TargetsField.jsonArr [{ city := some "X" }],
          status := JobStatus.pending }).successCommit.map Job.completed_at =
      some (some 200)) ∧
    ((processJob { maxAttempts := 3, baseBackoff := 30 } (fun _ => Except.ok 2)
        (some "usage db error") 100 200
        { id := 7, customer_id := some 1, job_type := "google_maps",
          targets := TargetsField.jsonArr [{ city := some "X" }],
          status := JobStatus.pending }).successCommit.map Job.next_retry_at =
      some none) ∧
    ((processJob { maxAttempts := 3, baseBackoff := 30 } (fun _ => Except.ok 2)
        (some "usage db error") 100 200
        { id := 7, customer_id := some 1, job_type := "google_maps",
          targets := TargetsField.jsonArr [{ city := some "X" }],
          status := JobStatus.pending }).final.status = JobStatus.pending) ∧
    ((processJob { maxAttempts := 3, baseBackoff := 30 } (fun _ => Except.ok 2)
        (some "usage db error") 100 200
        { id := 7, customer_id := some 1, job_type := "google_maps",
          targets := TargetsField.jsonArr [{ city := some "X" }],
          status := JobStatus.pending }).final.completed_at = none) ∧
    ((processJob { maxAttempts := 3, baseBackoff := 30 } (fun _ => Except.ok 2)
        (some "usage db error") 100 200
        { id := 7, customer_id := some 1, job_type := "google_maps",
          targets := TargetsField.jsonArr [{ city := some "X" }],
          status := JobStatus.pending }).final.next_retry_at = some 230) ∧
    ((processJob { maxAttempts := 3, baseBackoff := 30 } (fun _ => Except.ok 2)
        (some "usage db error") 100 200
        { id := 7, customer_id := some 1, job_type := "google_maps",
          targets := TargetsField.jsonArr [{ city := some "X" }],
          status := JobStatus.pending }).final.leads_found = 2) :=
  ⟨rfl, rfl, rfl, rfl, rfl, rfl, rfl⟩

theorem pickOldest_eq_none {l : List Job} : pickOldest l = none ↔ l = [] := by
  cases l with
  | nil => simp [pickOldest]
  | cons j rest =>
    simp only [pickOldest]
    cases pickOldest rest with
    | none => simp [olderOf]
    | some b =>
      simp only [olderOf]
      by_cases hc : j.created_at ≤ b.created_at
      · rw [if_pos hc]; simp
      · rw [if_neg hc]; simp

theorem pickOldest_mem {l : List Job} {j : Job} (h : pickOldest l = some j) :
    j ∈ l := by
  induction l generalizing j with
  | nil => simp [pickOldest] at h
  | cons a rest ih =>
    simp only [pickOldest] at h
    cases hr : pickOldest rest with
    | none =>
      rw [hr] at h
      simp only [olderOf] at h
      have ha : a = j := by injection h
      subst ha
      exact List.mem_cons_self a rest
    | some b =>
      rw [hr] at h
      simp only [olderOf] at h
      by_cases hc : a.created_at ≤ b.created_at
      · rw [if_pos hc] at h
        have ha : a = j := by injection h
        subst ha
        exact List.mem_cons_self a rest
      · rw [if_neg hc] at h
        have hb : b = j := by injection h
        subst hb
        exact List.mem_cons_of_mem a (ih hr)

theorem pickOldest_min {l : List Job} {j : Job} (h : pickOldest l = some j) :
    ∀ k ∈ l, j.created_at ≤ k.created_at := by
  induction l generalizing j with
  | nil => simp [pickOldest] at h
  | cons a rest ih =>
    intro k hk
    simp only [pickOldest] at h
    cases hr : pickOldest rest with
    | none =>
      rw [hr] at h
      simp only [olderOf] at h
      have ha : a = j := by injection h
      subst ha
      have hrest : rest = [] := pickOldest_eq_none.mp hr
      subst hrest
      have hka : k = a := by simpa using hk
      subst hka
      exact le_refl _
    | some b =>
      rw [hr] at h
      simp only [olderOf] at h
      by_cases hc : a.created_at ≤ b.created_at
      · rw [if_pos hc] at h
        have ha : a = j := by injection h
        subst ha
        rcases List.mem_cons.mp hk with hka | hkr
        · subst hka
          exact le_refl _
        · exact le_trans hc (ih hr k hkr)
      · rw [if_neg hc] at h
        have hb : b = j := by injection h
        subst hb
        rcases List.mem_cons.mp hk with hka | hkr
        · subst hka
          exact le_of_lt (lt_of_not_le hc)
        · exact ih hr k hkr

/-- C7: each poll cycle runs the reaper first and selects the single
oldest-by-`created_at` job among exactly the eligible ones
(`status = pending` and `next_retry_at` null or due) of the reaped table;
with no eligible job the cycle claims nothing, reports `false`, and the
worker loop's action is to sleep for the poll interval instead of
processing. -/
theorem c7_poll_cycle_spec (cfg : Config) (timeoutSeconds : Nat)
    (rt : Target → Except String Nat) (u : Option String) (now nowDone : Int)
    (jobs : List Job) :
    (selectNextJob now
        (recoverStuckRunningJobs cfg.maxAttempts timeoutSeconds now jobs).1 = none →
      processNextPendingJob cfg timeoutSeconds rt u now nowDone jobs =
        ((recoverStuckRunningJobs cfg.maxAttempts timeoutSeconds now jobs).1,
          false) ∧
      workerCycleAction cfg timeoutSeconds now jobs = CycleAction.sleep ∧
      ∀ k ∈ (recoverStuckRunningJobs cfg.maxAttempts timeoutSeconds now jobs).1,
        ¬(eligibleB now k = true)) ∧
    (∀ j, selectNextJob now
        (recoverStuckRunningJobs cfg.maxAttempts timeoutSeconds now jobs).1 =
          some j →
      j ∈ (recoverStuckRunningJobs cfg.maxAttempts timeoutSeconds now jobs).1 ∧
      eligibleB now j = true ∧
      (∀ k ∈ (recoverStuckRunningJobs cfg.maxAttempts timeoutSeconds now jobs).1,
        eligibleB now k = true → j.created_at ≤ k.created_at) ∧
      (processNextPendingJob cfg timeoutSeconds rt u now nowDone jobs).2 = true ∧
      workerCycleAction cfg timeoutSeconds now jobs =
        CycleAction.processed j.id) := by
  constructor
  · intro hsel
    refine ⟨?_, ?_, ?_⟩
    · simp only [processNextPendingJob]
      rw [hsel]
    · simp only [workerCycleAction]
      rw [hsel]
    · intro k hk helig
      have hfil : List.filter (fun j => eligibleB now j)
          (recoverStuckRunningJobs cfg.maxAttempts timeoutSeconds now jobs).1 = [] :=
        pickOldest_eq_none.mp hsel
      have : k ∈ List.filter (fun j => eligibleB now j)
          (recoverStuckRunningJobs cfg.maxAttempts timeoutSeconds now jobs).1 :=
        List.mem_filter.mpr ⟨hk, helig⟩
      rw [hfil] at this
      simp at this
  · intro j hsel
    have hmemfil : j ∈ List.filter (fun k => eligibleB now k)
        (recoverStuckRunningJobs cfg.maxAttempts timeoutSeconds now jobs).1 :=
      pickOldest_mem hsel
    have hmf := List.mem_filter.mp hmemfil
    refine ⟨hmf.1, hmf.2, ?_, ?_, ?_⟩
    · intro k hk helig
      exact pickOldest_min hsel k (List.mem_filter.mpr ⟨hk, helig⟩)
    · simp only [processNextPendingJob]
      rw [hsel]
    · simp only [workerCycleAction]
      rw [hsel]

/-- Witness for C7: a one-job table whose only job is pending but still
inside its backoff window at `now = 0`; the cycle selects nothing and the
loop's action is to sleep. -/
theorem c7_poll_cycle_spec_witness :
    (selectNextJob 0
        (recoverStuckRunningJobs 3 900 0
          [{ id := 14, job_type := "google_maps",
             targets := TargetsField.nullField, status := JobStatus.pending,
             next_retry_at := some 1000 }]).1 = none) ∧
    (processNextPendingJob { maxAttempts := 3, baseBackoff := 30 } 900
        (fun _ => Except.ok 1) none 0 0
        [{ id := 14, job_type := "google_maps",
           targets := TargetsField.nullField, status := JobStatus.pending,
           next_retry_at := some 1000 }] =
      ((recoverStuckRunningJobs 3 900 0
          [{ id := 14, job_type := "google_maps",
             targets := TargetsField.nullField, status := JobStatus.pending,
             next_retry_at := some 1000 }]).1, false)) ∧
    workerCycleAction { maxAttempts := 3, baseBackoff := 30 } 900 0
        [{ id := 14, job_type := "google_maps",
           targets := TargetsField.nullField, status := JobStatus.pending,
           next_retry_at := some 1000 }] = CycleAction.sleep :=
  ⟨rfl,
   ((c7_poll_cycle_spec { maxAttempts := 3, baseBackoff := 30 } 900
      (fun _ => Except.ok 1) none 0 0
      [{ id := 14, job_type := "google_maps",
         targets := TargetsField.nullField, status := JobStatus.pending,
         next_retry_at := some 1000 }]).1 rfl).1,
   ((c7_poll_cycle_spec { maxAttempts := 3, baseBackoff := 30 } 900
      (fun _ => Except.ok 1) none 0 0
      [{ id := 14, job_type := "google_maps",
         targets := TargetsField.nullField, status := JobStatus.pending,
         next_retry_at := some 1000 }]).1 rfl).2.1⟩

end LeadPilot
